import Mathlib

/-!
Verification development for the `ics-extractor` repository.

The Python sources (`src/main.py`, `src/config.py`, `src/google_calendar.py`)
are shallowly embedded below:

* the regular expression `_APPOINTMENT_PATTERN` and `re.finditer` are embedded
  as an explicit backtracking matcher over `List Char` (`matchElems`,
  `finditer`), mirroring Python's leftmost / backtracking / non-overlapping
  semantics for the constructs the pattern uses (fixed-count character
  classes, greedy `\s*`, lazy `[^(]+?`, greedy `[^)]+`, capture groups);
* `datetime.strptime(.., "%d.%m.%Y %H:%M")` is embedded as `strptime_dmY_HM`
  (returning `none` where Python raises `ValueError`);
* `datetime + timedelta(minutes=..)` is embedded as proleptic-Gregorian
  arithmetic (`addMinutes`, via the standard civil-from-days conversion);
  Python's year range 1..9999 (`OverflowError` outside it) is not modelled;
* fallible Python code is embedded with `Except String` (`ValueError` etc.);
* file-system access in `Config.load_or_default` is embedded by passing the
  file contents as `Option String` and returning the written-back contents.
-/

/-! ## Character classes

`\s` of Python `re` on `str` patterns: Unicode whitespace. -/

def isPySpace (c : Char) : Bool :=
  c = ' ' || c = '\t' || c = '\n' || c = '\x0b' || c = '\x0c' || c = '\r' ||
  c = '\x1c' || c = '\x1d' || c = '\x1e' || c = '\x1f' || c = '\x85' ||
  c = '\xa0' || c = ' ' ||
  (' ' ≤ c && c ≤ ' ') ||
  c = ' ' || c = ' ' || c = ' ' || c = ' ' || c = '　'

/-- `[A-Za-z]` of the pattern. -/
def isAsciiLetter (c : Char) : Bool :=
  ('A' ≤ c && c ≤ 'Z') || ('a' ≤ c && c ≤ 'z')

/-- `\d`, modelled as the ASCII decimal digits. -/
def isReDigit (c : Char) : Bool :=
  '0' ≤ c && c ≤ '9'

/-! ## A backtracking matcher for the constructs used by `_APPOINTMENT_PATTERN` -/

/-- One element of a regular expression, in the fragment the appointment
pattern needs: `tok p n` is a character class repeated exactly `n` times
(this covers single literal characters as one-element classes), `star p` is
greedy `p*`, `plusLazy p` is lazy `p+?`, `plusGreedy p` is greedy `p+`, and
`gopen`/`gclose` delimit capture group `k`. -/
inductive RElem where
  | tok (p : Char → Bool) (n : Nat)
  | star (p : Char → Bool)
  | plusLazy (p : Char → Bool)
  | plusGreedy (p : Char → Bool)
  | gopen (k : Nat)
  | gclose (k : Nat)

/-- Length of the maximal prefix of `s` whose characters satisfy `p`. -/
def pTake (p : Char → Bool) : List Char → Nat
  | [] => 0
  | c :: cs => if p c then pTake p cs + 1 else 0

/-- Result of matching a list of elements: number of characters consumed and
the recorded group markers (`(2k, pos)` when group `k` opened at absolute
position `pos`, `(2k+1, pos)` when it closed there). -/
abbrev MatchRes := Nat × List (Nat × Nat)

/-- Greedy loop: try consuming `n` characters for the quantifier, and on
failure of the continuation `k` backtrack to `n-1`, …, `0`. -/
def greedyFrom (k : List Char → Nat → List (Nat × Nat) → Option MatchRes)
    (s : List Char) (i : Nat) (acc : List (Nat × Nat)) : Nat → Option MatchRes
  | 0 => k s i acc
  | n + 1 =>
    match k (s.drop (n + 1)) (i + (n + 1)) acc with
    | some (c, a) => some (n + 1 + c, a)
    | none => greedyFrom k s i acc n

/-- Greedy loop that must consume at least one character: try `n`, `n-1`, …,
`1` characters and fail (rather than fall through to `0`) when none works. -/
def greedyPosFrom (k : List Char → Nat → List (Nat × Nat) → Option MatchRes)
    (s : List Char) (i : Nat) (acc : List (Nat × Nat)) : Nat → Option MatchRes
  | 0 => none
  | n + 1 =>
    match k (s.drop (n + 1)) (i + (n + 1)) acc with
    | some (c, a) => some (n + 1 + c, a)
    | none => greedyPosFrom k s i acc n

/-- Lazy loop: try consuming `n` characters, and on failure of the
continuation grow to `n+1`, for `remaining` more attempts. -/
def lazyFrom (k : List Char → Nat → List (Nat × Nat) → Option MatchRes)
    (s : List Char) (i : Nat) (acc : List (Nat × Nat)) :
    Nat → Nat → Option MatchRes
  | n, remaining =>
    match k (s.drop n) (i + n) acc with
    | some (c, a) => some (n + c, a)
    | none =>
      match remaining with
      | 0 => none
      | r + 1 => lazyFrom k s i acc (n + 1) r

/-- Match a list of pattern elements against `s` (the text from absolute
position `i` on), with Python `re`'s backtracking order: a quantifier first
takes its preferred count (maximal for greedy, minimal for lazy) and revises
it only after every continuation of the later elements failed.  Returns the
number of characters consumed and the group markers. -/
def matchElems : List RElem → List Char → Nat → List (Nat × Nat) →
    Option MatchRes
  | [], _, _, acc => some (0, acc)
  | .tok p n :: rest, s, i, acc =>
    if (s.take n).length == n && (s.take n).all p then
      (matchElems rest (s.drop n) (i + n) acc).map (fun r => (n + r.1, r.2))
    else
      none
  | .star p :: rest, s, i, acc =>
    greedyFrom (matchElems rest) s i acc (pTake p s)
  | .plusLazy p :: rest, s, i, acc =>
    let mx := pTake p s
    if mx == 0 then none else lazyFrom (matchElems rest) s i acc 1 (mx - 1)
  | .plusGreedy p :: rest, s, i, acc =>
    greedyPosFrom (matchElems rest) s i acc (pTake p s)
  | .gopen g :: rest, s, i, acc => matchElems rest s i ((2 * g, i) :: acc)
  | .gclose g :: rest, s, i, acc => matchElems rest s i ((2 * g + 1, i) :: acc)

/-- The appointment pattern of `src/main.py`:

`[A-Za-z]{2}\s*(\d{2}\.\d{2}\.\d{4})\s*(\d{2}:\d{2})\s*([^(]+?)\s*\(([^)]+)\)`
-/
def _APPOINTMENT_PATTERN : List RElem := [
  .tok isAsciiLetter 2,
  .star isPySpace,
  .gopen 1,
  .tok isReDigit 2, .tok (· = '.') 1, .tok isReDigit 2, .tok (· = '.') 1,
  .tok isReDigit 4,
  .gclose 1,
  .star isPySpace,
  .gopen 2,
  .tok isReDigit 2, .tok (· = ':') 1, .tok isReDigit 2,
  .gclose 2,
  .star isPySpace,
  .gopen 3, .plusLazy (· ≠ '('), .gclose 3,
  .star isPySpace,
  .tok (· = '(') 1,
  .gopen 4, .plusGreedy (· ≠ ')'), .gclose 4,
  .tok (· = ')') 1
]

/-- The pattern elements after the leading `[A-Za-z]{2}` token. -/
def appointmentPatternTail : List RElem := _APPOINTMENT_PATTERN.tail

/-- A match: its span `[start, stop)` in the text and the four captured
group substrings. -/
structure MatchData where
  start : Nat
  stop : Nat
  g1 : List Char
  g2 : List Char
  g3 : List Char
  g4 : List Char
  deriving DecidableEq, Repr

/-- Position recorded for marker `key`, `0` if absent (every group of the
pattern is recorded on a successful match). -/
def markerPos (acc : List (Nat × Nat)) (key : Nat) : Nat :=
  match acc.find? (fun x => x.1 == key) with
  | some x => x.2
  | none => 0

/-- The substring of `orig` between absolute positions `a` and `b`. -/
def sliceGroup (orig : List Char) (a b : Nat) : List Char :=
  (orig.drop a).take (b - a)

/-- Build the `MatchData` for a match at position `i` consuming `c`
characters with group markers `acc`. -/
def buildMatch (orig : List Char) (i c : Nat) (acc : List (Nat × Nat)) :
    MatchData where
  start := i
  stop := i + c
  g1 := sliceGroup orig (markerPos acc 2) (markerPos acc 3)
  g2 := sliceGroup orig (markerPos acc 4) (markerPos acc 5)
  g3 := sliceGroup orig (markerPos acc 6) (markerPos acc 7)
  g4 := sliceGroup orig (markerPos acc 8) (markerPos acc 9)

/-- The scan loop of `re.finditer`: try a match at the current position; on
success continue after the match (advancing one extra position when the
match was empty, as Python does), on failure advance one position.  `fuel`
only bounds the recursion and is set high enough (`length + 1`) that the
scan always completes: every step either consumes at least one character of
`s` or terminates. -/
def finditerAux (orig : List Char) : Nat → List Char → Nat → List MatchData
  | 0, _, _ => []
  | fuel + 1, s, i =>
    match matchElems _APPOINTMENT_PATTERN s i [] with
    | some (c, acc) =>
      let m := buildMatch orig i c acc
      if c == 0 then
        match s with
        | [] => [m]
        | _ :: rest => m :: finditerAux orig fuel rest (i + 1)
      else
        m :: finditerAux orig fuel (s.drop c) (i + c)
    | none =>
      match s with
      | [] => []
      | _ :: rest => finditerAux orig fuel rest (i + 1)

/-- `re.finditer(_APPOINTMENT_PATTERN, text)`: all non-overlapping matches,
scanning left to right. -/
def finditer (text : String) : List MatchData :=
  finditerAux text.data (text.data.length + 1) text.data 0

/-- Whether `text` contains at least one match of the pattern
(`re.search` succeeding). -/
def containsAppointment (text : String) : Bool :=
  !(finditer text).isEmpty

/-! ## `datetime` -/

/-- A Python `datetime` value as the program uses it (no seconds: the parse
format is `%d.%m.%Y %H:%M`, so seconds are always `0`).  The year is an
unbounded integer: Python's range 1..9999 is not modelled, so the calendar
arithmetic below is total. -/
structure DateTime where
  year : Int
  month : Nat
  day : Nat
  hour : Nat
  minute : Nat
  deriving DecidableEq, Repr

def isLeapYear (y : Int) : Bool :=
  y % 4 = 0 && (y % 100 ≠ 0 || y % 400 = 0)

def daysInMonth (m : Nat) (y : Int) : Nat :=
  match m with
  | 1 => 31 | 3 => 31 | 5 => 31 | 7 => 31 | 8 => 31 | 10 => 31 | 12 => 31
  | 4 => 30 | 6 => 30 | 9 => 30 | 11 => 30
  | 2 => if isLeapYear y then 29 else 28
  | _ => 0

def digitVal (c : Char) : Nat := c.toNat - 48

/-- `datetime.strptime(s, "%d.%m.%Y %H:%M")`: `none` where Python raises
`ValueError`.  The input always has the fixed shape produced by the regex
groups (`DD.MM.YYYY HH:MM`); strptime then validates the field ranges, with
`datetime`'s year range 1..9999. -/
def strptime_dmY_HM (s : List Char) : Option DateTime :=
  match s with
  | [d1, d2, '.', m1, m2, '.', y1, y2, y3, y4, ' ', h1, h2, ':', n1, n2] =>
    if [d1, d2, m1, m2, y1, y2, y3, y4, h1, h2, n1, n2].all Char.isDigit then
      let day := 10 * digitVal d1 + digitVal d2
      let month := 10 * digitVal m1 + digitVal m2
      let year := 1000 * digitVal y1 + 100 * digitVal y2 +
        10 * digitVal y3 + digitVal y4
      let hour := 10 * digitVal h1 + digitVal h2
      let minute := 10 * digitVal n1 + digitVal n2
      if 1 ≤ year && 1 ≤ month && month ≤ 12 &&
          1 ≤ day && day ≤ daysInMonth month year &&
          hour ≤ 23 && minute ≤ 59 then
        some ⟨year, month, day, hour, minute⟩
      else
        none
    else
      none
  | _ => none

/-- Days since 1970-01-01 of the civil date `y-m-d`
(standard days-from-civil conversion, proleptic Gregorian). -/
def daysFromCivil (y : Int) (m d : Nat) : Int :=
  let yy : Int := if m ≤ 2 then y - 1 else y
  let era : Int := yy.fdiv 400
  let yoe : Nat := (yy - era * 400).toNat
  let mp : Nat := if m ≤ 2 then m + 9 else m - 3
  let doy : Nat := (153 * mp + 2) / 5 + (d - 1)
  let doe : Nat := yoe * 365 + yoe / 4 - yoe / 100 + doy
  era * 146097 + (doe : Int) - 719468

/-- Inverse of `daysFromCivil` (standard civil-from-days conversion). -/
def civilFromDays (z0 : Int) : Int × Nat × Nat :=
  let z := z0 + 719468
  let era : Int := z.fdiv 146097
  let doe : Nat := (z - era * 146097).toNat
  let yoe : Nat := (doe - doe / 1460 + doe / 36524 - doe / 146096) / 365
  let y1 : Int := (yoe : Int) + era * 400
  let doy : Nat := doe - (365 * yoe + yoe / 4 - yoe / 100)
  let mp : Nat := (5 * doy + 2) / 153
  let d : Nat := doy - (153 * mp + 2) / 5 + 1
  let m : Nat := if mp < 10 then mp + 3 else mp - 9
  (if m ≤ 2 then y1 + 1 else y1, m, d)

def toEpochMinutes (dt : DateTime) : Int :=
  1440 * daysFromCivil dt.year dt.month dt.day + 60 * dt.hour + dt.minute

def fromEpochMinutes (t : Int) : DateTime :=
  let days := t.fdiv 1440
  let rem : Nat := (t - days * 1440).toNat
  let c := civilFromDays days
  ⟨c.1, c.2.1, c.2.2, rem / 60, rem % 60⟩

/-- `dt + timedelta(minutes=k)`. -/
def addMinutes (dt : DateTime) (k : Int) : DateTime :=
  fromEpochMinutes (toEpochMinutes dt + k)

/-! ## `Appointment` and extraction (`src/main.py`) -/

/-- The `Appointment` named tuple of `src/main.py`. -/
structure Appointment where
  date : DateTime
  therapy_kind : String
  therapist_name : String
  deriving DecidableEq, Repr

/-- Python `str.strip()` on the captured group texts. -/
def stripChars (l : List Char) : List Char :=
  ((l.dropWhile isPySpace).reverse.dropWhile isPySpace).reverse

/-- `_match_to_appointment` of `src/main.py`: combine the date and time
groups, parse them with `strptime`, and strip the therapy-kind and
therapist-name groups.  The `.error` case is Python's uncaught
`ValueError` from `strptime`. -/
def _match_to_appointment (m : MatchData) : Except String Appointment :=
  match strptime_dmY_HM (m.g1 ++ ' ' :: m.g2) with
  | some date =>
    .ok { date := date, therapy_kind := ⟨stripChars m.g3⟩,
          therapist_name := ⟨stripChars m.g4⟩ }
  | none => .error "ValueError"

/-- A list comprehension over a fallible body: the first exception aborts
the whole comprehension. -/
def mapExcept (f : α → Except ε β) : List α → Except ε (List β)
  | [] => .ok []
  | x :: xs =>
    match f x with
    | .error e => .error e
    | .ok y => (mapExcept f xs).map (y :: ·)

/-- `_extract_appointments` of `src/main.py`:
`[_match_to_appointment(match) for match in re.finditer(_APPOINTMENT_PATTERN, text)]`. -/
def _extract_appointments (text : String) : Except String (List Appointment) :=
  mapExcept _match_to_appointment (finditer text)

/-! ## `Config` (`src/config.py`) -/

/-- The pydantic `Config` model of `src/config.py`.  These are exactly the
fields the class declares; the mapping is an insertion-ordered dict with
unique keys, embedded as an association list. -/
structure Config where
  therapy_practice_address : List String
  therapy_kind_mapping : List (String × String)
  appointment_duration_minutes : Int
  deriving DecidableEq, Repr

/-- The field defaults of the `Config` model (a fresh `Config()`). -/
def defaultConfig : Config where
  therapy_practice_address :=
    ["Therapiezentrum am Stadtpark", "Stadtpark 1", "12345 Musterstadt"]
  therapy_kind_mapping :=
    [("KG ZNS", "Krankengymnastik"), ("O60", "Osteopathie")]
  appointment_duration_minutes := 30

/-- Python attribute access on a `Config` value: `some` for the fields the
class declares, `none` where Python raises `AttributeError`.  A value of a
field, tagged with its type. -/
inductive ConfigAttr where
  | strList (v : List String)
  | strMap (v : List (String × String))
  | int (v : Int)
  deriving DecidableEq, Repr

/-- `getattr(c, name)` for the `Config` model: `none` is `AttributeError`.
`main.py` line 66 reads `config.enable_google_calendar_upload` and
`google_calendar.py` line 75 reads `config.google_calendar_id`— neither is
among the declared fields. -/
def Config.getattr (c : Config) (name : String) : Option ConfigAttr :=
  if name = "therapy_practice_address" then
    some (.strList c.therapy_practice_address)
  else if name = "therapy_kind_mapping" then
    some (.strMap c.therapy_kind_mapping)
  else if name = "appointment_duration_minutes" then
    some (.int c.appointment_duration_minutes)
  else
    none

/-- `Config.load_or_default` of `src/config.py`.  The file system is
embedded by passing the configuration file's contents (`none` when the file
does not exist) and returning, beside the configuration, the contents
written back (`none` when nothing is written).  `validate_json` and
`dump_json` stand for pydantic's `model_validate_json` /
`model_dump_json`; validation failure (`.error`) propagates — it is not
caught anywhere, so it is fatal for the run. -/
def Config.load_or_default
    (validate_json : String → Except String Config)
    (dump_json : Config → String)
    (contents : Option String) : Except String (Config × Option String) :=
  match contents with
  | some text => (validate_json text).map (fun c => (c, none))
  | none => .ok (defaultConfig, some (dump_json defaultConfig))

/-! ## ICS generation (`src/main.py`) -/

/-- Decimal digit character for `k ≤ 9`. -/
def digitChar (k : Nat) : Char :=
  match k with
  | 0 => '0' | 1 => '1' | 2 => '2' | 3 => '3' | 4 => '4'
  | 5 => '5' | 6 => '6' | 7 => '7' | 8 => '8' | _ => '9'

/-- Python `str(n)` for a natural number, as characters. -/
def natRepr (n : Nat) : List Char :=
  if _h : n < 10 then [digitChar n]
  else natRepr (n / 10) ++ [digitChar (n % 10)]
  decreasing_by exact Nat.div_lt_self (by omega) (by omega)

/-- Zero-pad the decimal representation of `n` to (at least) `w`
characters, as `strftime`'s numeric directives do. -/
def padNat (w n : Nat) : List Char :=
  List.replicate (w - (natRepr n).length) '0' ++ natRepr n

/-- `date.strftime("%Y%m%d%H%M%S")` (the seconds are always `00` here:
the parse format has no seconds).  Negative years do not occur in dates
produced by `strptime`; `Int.toNat` maps them to `0`. -/
def strftimeStamp (dt : DateTime) : List Char :=
  padNat 4 dt.year.toNat ++ padNat 2 dt.month ++ padNat 2 dt.day ++
  padNat 2 dt.hour ++ padNat 2 dt.minute ++ ['0', '0']

/-- The unique identifier of `_create_event`:
`f"{appointment.date.strftime('%Y%m%d%H%M%S')}-{event_id}@ics-extractor"`. -/
def eventUid (date : DateTime) (event_id : Nat) : List Char :=
  strftimeStamp date ++ '-' :: (natRepr event_id ++ '@' :: "ics-extractor".data)

/-- `dict.get(key, fallback)` on the insertion-ordered,
unique-keyed `therapy_kind_mapping`. -/
def dictGet (m : List (String × String)) (key : String) : Option String :=
  (m.find? (fun x => x.1 == key)).map (·.2)

/-- An iCalendar `Event` as `_create_event` fills it in. -/
structure Event where
  uid : String
  dtstamp : DateTime
  dtstart : DateTime
  dtend : DateTime
  summary : String
  description : String
  location : String
  status : String
  deriving DecidableEq, Repr

/-- `_create_event` of `src/main.py`.  `now` is the value of
`datetime.now()` at the call (the `dtstamp` field). -/
def _create_event (appointment : Appointment) (event_id : Nat)
    (config : Config) (now : DateTime) : Event where
  uid := ⟨eventUid appointment.date event_id⟩
  dtstamp := now
  dtstart := appointment.date
  dtend := addMinutes appointment.date config.appointment_duration_minutes
  summary :=
    (dictGet config.therapy_kind_mapping appointment.therapy_kind).getD
      appointment.therapy_kind
  description := appointment.therapist_name
  location := String.intercalate "\n" config.therapy_practice_address
  status := "CONFIRMED"

/-- An iCalendar document as `_generate_ics` builds it. -/
structure Calendar where
  prodid : String
  version : String
  events : List Event
  deriving DecidableEq, Repr

/-- Python `enumerate(l, start)`. -/
def pyEnumerate (start : Nat) : List α → List (Nat × α)
  | [] => []
  | x :: xs => (start, x) :: pyEnumerate (start + 1) xs

/-- `_generate_ics` of `src/main.py`: one event per appointment, with the
per-document sequence number from `enumerate(appointments, start=1)`. -/
def _generate_ics (appointments : List Appointment) (config : Config)
    (now : DateTime) : Calendar where
  prodid := "-//ICS Extractor//EN"
  version := "2.0"
  events :=
    (pyEnumerate 1 appointments).map
      (fun ia => _create_event ia.2 ia.1 config now)

/-! ## Derived notions used by the statements -/

/-- Whether an `Except` computation succeeded. -/
def isOkExcept : Except ε α → Bool
  | .ok _ => true
  | .error _ => false

/-- Reading the decimal digits back; left inverse of `natRepr`. -/
def parseNatChars (l : List Char) : Nat :=
  l.foldl (fun a c => 10 * a + digitVal c) 0

/-! ## Helper lemmas -/

theorem mapExcept_ok_forall₂ {f : α → Except ε β} :
    ∀ {l : List α} {r : List β}, mapExcept f l = .ok r →
      List.Forall₂ (fun x y => f x = .ok y) l r := by
  intro l
  induction l with
  | nil =>
    intro r h
    simp only [mapExcept, Except.ok.injEq] at h
    subst h
    exact .nil
  | cons x xs ih =>
    intro r h
    cases hfx : f x with
    | error e => simp [mapExcept, hfx] at h
    | ok y =>
      cases hmx : mapExcept f xs with
      | error e => simp [mapExcept, hfx, hmx, Except.map] at h
      | ok ys =>
        simp only [mapExcept, hfx, hmx, Except.map, Except.ok.injEq] at h
        subst h
        exact .cons hfx (ih hmx)

theorem mapExcept_ok_of_all {f : α → Except ε β} :
    ∀ {l : List α}, l.all (fun x => isOkExcept (f x)) = true →
      ∃ r, mapExcept f l = .ok r ∧ (l = [] → r = []) := by
  intro l
  induction l with
  | nil => exact fun _ => ⟨[], rfl, fun _ => rfl⟩
  | cons x xs ih =>
    intro h
    simp only [List.all_cons, Bool.and_eq_true] at h
    cases hfx : f x with
    | error e => rw [hfx] at h; simp [isOkExcept] at h
    | ok y =>
      obtain ⟨r, hr, _⟩ := ih h.2
      exact ⟨y :: r, by simp [mapExcept, hfx, hr, Except.map], by simp⟩

theorem finditerAux_none_nil (orig : List Char) (fuel i : Nat)
    (hm : matchElems _APPOINTMENT_PATTERN [] i [] = none) :
    finditerAux orig (fuel + 1) [] i = [] := by
  simp [finditerAux, hm]

theorem finditerAux_none_cons (orig : List Char) (fuel i : Nat) (ch : Char)
    (rest : List Char)
    (hm : matchElems _APPOINTMENT_PATTERN (ch :: rest) i [] = none) :
    finditerAux orig (fuel + 1) (ch :: rest) i =
      finditerAux orig fuel rest (i + 1) := by
  simp [finditerAux, hm]

theorem finditerAux_some0_nil (orig : List Char) (fuel i : Nat)
    (acc : List (Nat × Nat))
    (hm : matchElems _APPOINTMENT_PATTERN [] i [] = some (0, acc)) :
    finditerAux orig (fuel + 1) [] i = [buildMatch orig i 0 acc] := by
  simp [finditerAux, hm]

theorem finditerAux_some0_cons (orig : List Char) (fuel i : Nat) (ch : Char)
    (rest : List Char) (acc : List (Nat × Nat))
    (hm : matchElems _APPOINTMENT_PATTERN (ch :: rest) i [] = some (0, acc)) :
    finditerAux orig (fuel + 1) (ch :: rest) i =
      buildMatch orig i 0 acc :: finditerAux orig fuel rest (i + 1) := by
  simp [finditerAux, hm]

theorem finditerAux_some_pos (orig : List Char) (fuel i c : Nat)
    (s : List Char) (acc : List (Nat × Nat))
    (hm : matchElems _APPOINTMENT_PATTERN s i [] = some (c + 1, acc)) :
    finditerAux orig (fuel + 1) s i =
      buildMatch orig i (c + 1) acc ::
        finditerAux orig fuel (s.drop (c + 1)) (i + (c + 1)) := by
  simp [finditerAux, hm]

/-- The matches delivered by the `finditer` scan loop all start at or after
the scan position, and their spans are non-overlapping and in strictly
increasing position order. -/
theorem finditerAux_sorted (orig : List Char) :
    ∀ (fuel : Nat) (s : List Char) (i : Nat),
      (∀ m ∈ finditerAux orig fuel s i, i ≤ m.start) ∧
        List.Chain' (fun m m' => m.stop ≤ m'.start ∧ m.start < m'.start)
          (finditerAux orig fuel s i) := by
  intro fuel
  induction fuel with
  | zero => intro s i; simp [finditerAux]
  | succ fuel ih =>
    intro s i
    cases hm : matchElems _APPOINTMENT_PATTERN s i [] with
    | none =>
      cases s with
      | nil => rw [finditerAux_none_nil orig fuel i hm]; simp
      | cons ch rest =>
        rw [finditerAux_none_cons orig fuel i ch rest hm]
        have h := ih rest (i + 1)
        exact ⟨fun m hmem => le_trans (by omega) (h.1 m hmem), h.2⟩
    | some ca =>
      obtain ⟨c, acc⟩ := ca
      cases c with
      | zero =>
        cases s with
        | nil =>
          rw [finditerAux_some0_nil orig fuel i acc hm]
          refine ⟨fun m hmem => ?_, by simp⟩
          rw [List.mem_singleton] at hmem
          subst hmem
          simp [buildMatch]
        | cons ch rest =>
          rw [finditerAux_some0_cons orig fuel i ch rest acc hm]
          have h := ih rest (i + 1)
          refine ⟨fun m hmem => ?_, ?_⟩
          · rcases List.mem_cons.mp hmem with rfl | hmem
            · simp [buildMatch]
            · exact le_trans (by omega) (h.1 m hmem)
          · refine List.chain'_cons'.mpr ⟨fun y hy => ?_, h.2⟩
            have hym := h.1 y (List.mem_of_mem_head? hy)
            refine ⟨?_, ?_⟩ <;> simp only [buildMatch] <;> omega
      | succ k =>
        rw [finditerAux_some_pos orig fuel i k s acc hm]
        have h := ih (s.drop (k + 1)) (i + (k + 1))
        refine ⟨fun m hmem => ?_, ?_⟩
        · rcases List.mem_cons.mp hmem with rfl | hmem
          · simp [buildMatch]
          · exact le_trans (by omega) (h.1 m hmem)
        · refine List.chain'_cons'.mpr ⟨fun y hy => ?_, h.2⟩
          have hym := h.1 y (List.mem_of_mem_head? hy)
          refine ⟨?_, ?_⟩ <;> simp only [buildMatch] <;> omega

theorem digitVal_digitChar {k : Nat} (h : k < 10) : digitVal (digitChar k) = k := by
  interval_cases k <;> rfl

theorem digitChar_isDigit (k : Nat) : (digitChar k).isDigit = true := by
  unfold digitChar
  split <;> decide

theorem parseNatChars_append_one (l : List Char) (c : Char) :
    parseNatChars (l ++ [c]) = 10 * parseNatChars l + digitVal c := by
  simp [parseNatChars, List.foldl_append]

theorem parseNatChars_natRepr (n : Nat) : parseNatChars (natRepr n) = n := by
  induction n using Nat.strong_induction_on with
  | _ n ih =>
    rw [natRepr]
    split
    · rename_i h
      simp only [parseNatChars, List.foldl]
      rw [digitVal_digitChar h]
      omega
    · rename_i h
      rw [parseNatChars_append_one, ih (n / 10) (Nat.div_lt_self (by omega) (by omega)),
        digitVal_digitChar (Nat.mod_lt _ (by omega))]
      omega

theorem natRepr_inj {a b : Nat} (h : natRepr a = natRepr b) : a = b := by
  have ha := parseNatChars_natRepr a
  have hb := parseNatChars_natRepr b
  rw [h] at ha
  omega

theorem natRepr_all_digit (n : Nat) : (natRepr n).all Char.isDigit = true := by
  induction n using Nat.strong_induction_on with
  | _ n ih =>
    rw [natRepr]
    split
    · simp [digitChar_isDigit]
    · rename_i h
      simp [List.all_append, ih (n / 10) (Nat.div_lt_self (by omega) (by omega)),
        digitChar_isDigit]

theorem padNat_all_digit (w n : Nat) : (padNat w n).all Char.isDigit = true := by
  simp only [padNat, List.all_append, natRepr_all_digit, Bool.and_true]
  simp only [List.all_eq_true]
  intro c hc
  rw [List.eq_of_mem_replicate hc]
  decide

theorem strftimeStamp_all_digit (dt : DateTime) :
    (strftimeStamp dt).all Char.isDigit = true := by
  simp [strftimeStamp, List.all_append, padNat_all_digit]

/-- Splitting a list at a non-digit separator preceded by digits is
unambiguous. -/
theorem sep_split (sep : Char) (hs : sep.isDigit = false) :
    ∀ (a : List Char), a.all Char.isDigit = true →
      ∀ (b : List Char), b.all Char.isDigit = true →
        ∀ r₁ r₂ : List Char, a ++ sep :: r₁ = b ++ sep :: r₂ →
          a = b ∧ r₁ = r₂ := by
  intro a
  induction a with
  | nil =>
    intro _ b hb r₁ r₂ h
    cases b with
    | nil => simpa using h
    | cons d bs =>
      simp only [List.nil_append, List.cons_append, List.cons.injEq] at h
      rw [← h.1] at hb
      simp [List.all_cons, hs] at hb
  | cons c as ih =>
    intro ha b hb r₁ r₂ h
    simp only [List.all_cons, Bool.and_eq_true] at ha
    cases b with
    | nil =>
      simp only [List.nil_append, List.cons_append, List.cons.injEq] at h
      rw [h.1] at ha
      simp [hs] at ha
    | cons d bs =>
      simp only [List.all_cons, Bool.and_eq_true] at hb
      simp only [List.cons_append, List.cons.injEq] at h
      obtain ⟨he, ht⟩ := h
      obtain ⟨hab, hr⟩ := ih ha.2 bs hb.2 r₁ r₂ ht
      exact ⟨by rw [he, hab], hr⟩

theorem eventUid_inj {d₁ d₂ : DateTime} {i₁ i₂ : Nat}
    (h : eventUid d₁ i₁ = eventUid d₂ i₂) : i₁ = i₂ := by
  unfold eventUid at h
  obtain ⟨-, h₂⟩ := sep_split '-' (by decide)
    (strftimeStamp d₁) (strftimeStamp_all_digit d₁)
    (strftimeStamp d₂) (strftimeStamp_all_digit d₂) _ _ h
  obtain ⟨h₃, -⟩ := sep_split '@' (by decide)
    (natRepr i₁) (natRepr_all_digit i₁)
    (natRepr i₂) (natRepr_all_digit i₂) _ _ h₂
  exact natRepr_inj h₃

theorem pyEnumerate_fst_ge :
    ∀ (l : List α) (s : Nat), ∀ x ∈ pyEnumerate s l, s ≤ x.1 := by
  intro l
  induction l with
  | nil => simp [pyEnumerate]
  | cons a as ih =>
    intro s x hx
    simp only [pyEnumerate, List.mem_cons] at hx
    rcases hx with rfl | hx
    · exact le_refl s
    · exact le_trans (by omega) (ih (s + 1) x hx)

theorem pyEnumerate_fst_pairwise :
    ∀ (l : List α) (s : Nat),
      (pyEnumerate s l).Pairwise (fun x y => x.1 < y.1) := by
  intro l
  induction l with
  | nil => intro s; simp [pyEnumerate]
  | cons a as ih =>
    intro s
    refine List.Pairwise.cons (fun y hy => ?_) (ih (s + 1))
    have := pyEnumerate_fst_ge as (s + 1) y hy
    omega

theorem matchElems_tok_cons (p : Char → Bool) (n : Nat) (rest : List RElem)
    (s : List Char) (i : Nat) (acc : List (Nat × Nat)) :
    matchElems (.tok p n :: rest) s i acc =
      if ((s.take n).length == n && (s.take n).all p) = true then
        (matchElems rest (s.drop n) (i + n) acc).map (fun r => (n + r.1, r.2))
      else
        none := by
  simp [matchElems]

/-- If the pattern matches at position `0`, text scanning finds a match. -/
theorem contains_of_match_at_start (t : String)
    (h : (matchElems _APPOINTMENT_PATTERN t.data 0 []).isSome = true) :
    containsAppointment t = true := by
  unfold containsAppointment finditer
  cases hm : matchElems _APPOINTMENT_PATTERN t.data 0 [] with
  | none => rw [hm] at h; simp at h
  | some ca =>
    obtain ⟨c, acc⟩ := ca
    cases c with
    | zero =>
      cases hd : t.data with
      | nil =>
        rw [hd] at hm
        simp only [hd, List.length_nil]
        rw [finditerAux_some0_nil [] 0 0 acc hm]
        simp
      | cons ch rest =>
        rw [hd] at hm
        simp only [hd, List.length_cons]
        rw [finditerAux_some0_cons (ch :: rest) (rest.length + 1) 0 ch rest acc hm]
        simp
    | succ k =>
      rw [finditerAux_some_pos t.data t.data.length 0 k t.data acc hm]
      simp

/-! ## The claims -/

/-- C1 (counterexample): extraction is not a total function.  On the input
`"Di31.02.202616:40KG ZNS (Katja)"` the pattern matches (the digit classes
do not validate the calendar), and `strptime` then raises `ValueError`
(February has no day 31), which propagates out of
`_extract_appointments`. -/
theorem extraction_raises_on_invalid_date :
    _extract_appointments "Di31.02.202616:40KG ZNS (Katja)" =
      .error "ValueError" := by rfl

/-- C1 (amended): extraction never fails as long as every matched substring
carries a calendrically valid date (in particular this covers every text
without a match), and a text without any matching substring yields the
empty sequence. -/
theorem extraction_total_on_valid_dates (text : String)
    (h : (finditer text).all (fun m => isOkExcept (_match_to_appointment m)) = true) :
    ∃ apps, _extract_appointments text = .ok apps ∧
      (finditer text = [] → apps = []) :=
  mapExcept_ok_of_all h

/-- C1 (witness): the amended theorem applied to the empty string. -/
theorem extraction_total_on_valid_dates_witness :
    ∃ apps, _extract_appointments "" = .ok apps ∧
      (finditer "" = [] → apps = []) :=
  extraction_total_on_valid_dates "" (by rfl)

/-- C2: the `Config` model of `src/config.py` declares no
`enable_google_calendar_upload` and no `google_calendar_id` field, although
`main.py` and `google_calendar.py` read them: attribute access on any
configuration value answers `none` (Python: `AttributeError`) for both
names. -/
theorem config_lacks_google_fields (c : Config) :
    c.getattr "enable_google_calendar_upload" = none ∧
    c.getattr "google_calendar_id" = none :=
  ⟨rfl, rfl⟩

/-- C3: a successful extraction returns exactly one `Appointment` per match
found by the scan, pairing the k-th appointment with the k-th match
(`Forall₂` fixes both the count and the order, so the result is in
occurrence order, never re-sorted), and the matches' spans are
non-overlapping and strictly left to right. -/
theorem extraction_ordered (text : String) (apps : List Appointment)
    (h : _extract_appointments text = .ok apps) :
    List.Forall₂ (fun m a => _match_to_appointment m = .ok a)
      (finditer text) apps ∧
    List.Chain' (fun m m' => m.stop ≤ m'.start ∧ m.start < m'.start)
      (finditer text) :=
  ⟨mapExcept_ok_forall₂ h,
   (finditerAux_sorted text.data (text.data.length + 1) text.data 0).2⟩

/-- C3 (witness): the spec's scenario, three appointments in occurrence
order (2026-01-29, then 2026-01-27, then 2026-02-03), not in date order. -/
theorem extraction_ordered_witness :
    List.Forall₂ (fun m a => _match_to_appointment m = .ok a)
      (finditer "Do29.01.202615:30KG ZNS (Mike)\nDi27.01.202616:40KG ZNS (Katja)\nDi03.02.202616:40KG ZNS (Katja)")
      [⟨⟨2026, 1, 29, 15, 30⟩, "KG ZNS", "Mike"⟩,
       ⟨⟨2026, 1, 27, 16, 40⟩, "KG ZNS", "Katja"⟩,
       ⟨⟨2026, 2, 3, 16, 40⟩, "KG ZNS", "Katja"⟩] ∧
    List.Chain' (fun m m' => m.stop ≤ m'.start ∧ m.start < m'.start)
      (finditer "Do29.01.202615:30KG ZNS (Mike)\nDi27.01.202616:40KG ZNS (Katja)\nDi03.02.202616:40KG ZNS (Katja)") :=
  extraction_ordered _ _ (by rfl)

/-- C4: whitespace-insensitive but separator-strict matching, on the spec's
five examples: the glued and the spaced form both match; a missing
day-token, a `/` date separator and a `-` date separator do not match. -/
theorem pattern_whitespace_and_separator_examples :
    containsAppointment "Di27.01.202616:40KG ZNS (Katja)" = true ∧
    containsAppointment "Do 08.01.2026 14:30 O60 (Thomas)" = true ∧
    containsAppointment "27.01.2026 16:40 (Katja)" = false ∧
    containsAppointment "27/01/2026 16:40 (Katja)" = false ∧
    containsAppointment "Di27-01-202616:40 (Katja)" = false := by
  refine ⟨by rfl, by rfl, by rfl, by rfl, by rfl⟩

/-- C5: the leading two-letter day token is not validated: for ANY two
characters of the class `[A-Za-z]` followed by a fixed valid remainder, the
match succeeds — no check against weekday names and no consistency check
with the parsed date. -/
theorem day_token_not_validated (c₁ c₂ : Char)
    (h₁ : isAsciiLetter c₁ = true) (h₂ : isAsciiLetter c₂ = true) :
    containsAppointment ⟨c₁ :: c₂ :: "27.01.2026 16:40 KG (Katja)".data⟩ = true := by
  apply contains_of_match_at_start
  show (matchElems _APPOINTMENT_PATTERN
    (c₁ :: c₂ :: "27.01.2026 16:40 KG (Katja)".data) 0 []).isSome = true
  simp only [show _APPOINTMENT_PATTERN =
    .tok isAsciiLetter 2 :: appointmentPatternTail from rfl]
  rw [matchElems_tok_cons]
  simp only [List.take_succ_cons, List.take_zero, List.length_cons,
    List.length_nil, List.all_cons, List.all_nil, h₁, h₂, Bool.and_true,
    Bool.true_and]
  rfl

/-- C5 (witness): `"XQ"` is not a weekday abbreviation, and 27.01.2026 is a
Tuesday (`Di`), yet the match succeeds. -/
theorem day_token_not_validated_witness :
    containsAppointment ⟨'X' :: 'Q' :: "27.01.2026 16:40 KG (Katja)".data⟩ = true :=
  day_token_not_validated 'X' 'Q' (by rfl) (by rfl)

/-- C6: the therapy-kind and therapist-name fields of every extracted
appointment are the captured group texts stripped of leading and trailing
whitespace, and on `"Di27.01.202616:40KG ZNS (  Katja  )"` extraction
yields therapy kind `"KG ZNS"` (internal space preserved) and therapist
name exactly `"Katja"`. -/
theorem fields_are_stripped_captures :
    (∀ (m : MatchData) (a : Appointment), _match_to_appointment m = .ok a →
        a.therapy_kind = ⟨stripChars m.g3⟩ ∧
        a.therapist_name = ⟨stripChars m.g4⟩) ∧
    _extract_appointments "Di27.01.202616:40KG ZNS (  Katja  )" =
      .ok [⟨⟨2026, 1, 27, 16, 40⟩, "KG ZNS", "Katja"⟩] := by
  constructor
  · intro m a h
    unfold _match_to_appointment at h
    cases hp : strptime_dmY_HM (m.g1 ++ ' ' :: m.g2) with
    | none => simp only [hp] at h; cases h
    | some dt =>
      simp only [hp, Except.ok.injEq] at h
      subst h
      exact ⟨rfl, rfl⟩
  · rfl

/-- C6 (witness): the trimming clause applied to a concrete match whose
groups carry surrounding whitespace. -/
theorem fields_are_stripped_captures_witness :
    (⟨⟨2026, 1, 27, 16, 40⟩, "KG ZNS", "Katja"⟩ : Appointment).therapy_kind =
      ⟨stripChars " KG ZNS ".data⟩ ∧
    (⟨⟨2026, 1, 27, 16, 40⟩, "KG ZNS", "Katja"⟩ : Appointment).therapist_name =
      ⟨stripChars "  Katja  ".data⟩ :=
  fields_are_stripped_captures.1
    ⟨0, 35, "27.01.2026".data, "16:40".data, " KG ZNS ".data, "  Katja  ".data⟩
    ⟨⟨2026, 1, 27, 16, 40⟩, "KG ZNS", "Katja"⟩ (by rfl)

/-- C7: the generated event's start is the appointment date/time, its end
is start plus the configured duration in minutes, its title is the
configured display name of the treatment code (the raw code if unmapped),
its description is the practitioner name, its location is the configured
address lines joined by newlines, its status is confirmed — and all fields
except the creation timestamp `dtstamp` are a deterministic function of
the appointment, sequence number and configuration. -/
theorem event_fields_deterministic (a : Appointment) (event_id : Nat)
    (config : Config) (now now2 : DateTime) :
    (_create_event a event_id config now).dtstart = a.date ∧
    (_create_event a event_id config now).dtend =
      addMinutes a.date config.appointment_duration_minutes ∧
    (_create_event a event_id config now).summary =
      (dictGet config.therapy_kind_mapping a.therapy_kind).getD a.therapy_kind ∧
    (_create_event a event_id config now).description = a.therapist_name ∧
    (_create_event a event_id config now).location =
      String.intercalate "\n" config.therapy_practice_address ∧
    (_create_event a event_id config now).status = "CONFIRMED" ∧
    { _create_event a event_id config now with dtstamp := now2 } =
      _create_event a event_id config now2 :=
  ⟨rfl, rfl, rfl, rfl, rfl, rfl, rfl⟩

/-- C8: within one generated calendar the event identifiers are pairwise
distinct, for every list of appointments (duplicates included): the uid
embeds the per-document sequence number between the all-digit timestamp
and a non-digit separator, so equal uids force equal sequence numbers. -/
theorem event_uids_pairwise_distinct (appointments : List Appointment)
    (config : Config) (now : DateTime) :
    ((_generate_ics appointments config now).events).Pairwise
      (fun e₁ e₂ => e₁.uid ≠ e₂.uid) := by
  unfold _generate_ics
  simp only [List.pairwise_map]
  refine List.Pairwise.imp ?_ (pyEnumerate_fst_pairwise appointments 1)
  intro x y hlt heq
  have h2 := eventUid_inj (congrArg String.data heq)
  omega

/-- C9: configuration load is fatal exactly when a persisted file exists
and is malformed (the validation error propagates, with no fallback to
incomplete or default values), a well-formed existing file is loaded as-is
without writing, and an absent file yields the built-in defaults, written
back. -/
theorem config_load_behavior
    (validate_json : String → Except String Config)
    (dump_json : Config → String) :
    (∀ text e, validate_json text = .error e →
        Config.load_or_default validate_json dump_json (some text) =
          .error e) ∧
    (∀ text c, validate_json text = .ok c →
        Config.load_or_default validate_json dump_json (some text) =
          .ok (c, none)) ∧
    Config.load_or_default validate_json dump_json none =
      .ok (defaultConfig, some (dump_json defaultConfig)) := by
  refine ⟨fun text e h => ?_, fun text c h => ?_, rfl⟩
  · simp [Config.load_or_default, h, Except.map]
  · simp [Config.load_or_default, h, Except.map]

/-- C9 (witness): the load behavior at a concrete validator: a malformed
existing file is fatal, a well-formed one loads, an absent file writes the
dumped defaults. -/
theorem config_load_behavior_witness :
    Config.load_or_default
      (fun text => if text = "good" then .ok defaultConfig
        else .error "ValidationError")
      (fun _ => "dumped") (some "bad") = .error "ValidationError" ∧
    Config.load_or_default
      (fun text => if text = "good" then .ok defaultConfig
        else .error "ValidationError")
      (fun _ => "dumped") (some "good") = .ok (defaultConfig, none) ∧
    Config.load_or_default
      (fun text => if text = "good" then .ok defaultConfig
        else .error "ValidationError")
      (fun _ => "dumped") none = .ok (defaultConfig, some "dumped") :=
  ⟨(config_load_behavior _ _).1 "bad" "ValidationError" (by rfl),
   (config_load_behavior _ _).2.1 "good" defaultConfig (by rfl),
   (config_load_behavior _ _).2.2⟩

/-- C10: when only whitespace separates the time from the opening
parenthesis, the text still matches — the whitespace is captured as the
treatment-code group — and extraction returns an appointment whose
treatment-code field is the empty string after trimming. -/
theorem whitespace_only_therapy_kind :
    _extract_appointments "Di27.01.202616:40 (Katja)" =
      .ok [⟨⟨2026, 1, 27, 16, 40⟩, "", "Katja"⟩] := by rfl
